import Mathlib

/-!
Shallow embedding of `src/05-objects-tasks.js`: the `Rectangle` constructor,
the JSON helpers `getJSON` / `fromJSON`, and the CSS selector builder class
`SB` with its facade instance `cssSelectorBuilder`.

JS fragments `['kind', text]` become the structure `Frag`; the builder's
array `this.a` becomes a `List Frag`; a method that can `throw` returns
`Except String SB`, carrying the thrown message.
-/

namespace ObjectsTasks

/-- The six selector fragment kinds, i.e. the keys of the rank table `p`. -/
inductive Kind where
  | element
  | id
  | «class»
  | attr
  | pseudoClass
  | pseudoElement
deriving DecidableEq, Repr

/-- Rank table `p` from the source: element 0, id 1, class 2, attr 3,
pseudoClass 4, pseudoElement 5. -/
def p : Kind → Nat
  | .element => 0
  | .id => 1
  | .«class» => 2
  | .attr => 3
  | .pseudoClass => 4
  | .pseudoElement => 5

/-- A stored fragment `[kind, text]`: the kind tag `e[0]` and the
pre-rendered text `e[1]`. -/
structure Frag where
  kind : Kind
  text : String
deriving DecidableEq, Repr

/-- The ordering error message `err1` from the source. -/
def err1 : String :=
  "Selector parts should be arranged in the following order: element, id, class, attribute, pseudo-class, pseudo-element"

/-- The duplicate error message `err2` from the source. -/
def err2 : String :=
  "Element, id and pseudo-element should not occur more then one time inside the selector"

/-- The builder class `SB`: its only data is the fragment array `a`. -/
structure SB where
  a : List Frag
deriving DecidableEq, Repr

/-- The pairwise scan of the `SB` constructor: `true` when no consecutive
pair `a[i-1], a[i]` has `p[a[i-1][0]] > p[a[i][0]]`. -/
def orderingOk : List Frag → Bool
  | [] => true
  | [_] => true
  | x :: y :: rest => (decide (p x.kind ≤ p y.kind)) && orderingOk (y :: rest)

/-- The `SB` constructor `constructor(a, validate = true)`: when `validate`
is set it throws `err1` on the first order violation, otherwise it stores
`a` unchanged. -/
def SB.make (a : List Frag) (validate : Bool) : Except String SB :=
  if validate && !(orderingOk a) then .error err1 else .ok ⟨a⟩

/-- Method `element(s)`: duplicate check on the `element` kind, then
construction with validation. -/
def SB.element (b : SB) (s : String) : Except String SB :=
  if b.a.any (fun e => e.kind == Kind.element) then .error err2
  else SB.make (b.a ++ [⟨Kind.element, s⟩]) true

/-- Method `id(s)`: duplicate check on the `id` kind, then construction
with validation; the fragment renders as `#s`. -/
def SB.id (b : SB) (s : String) : Except String SB :=
  if b.a.any (fun e => e.kind == Kind.id) then .error err2
  else SB.make (b.a ++ [⟨Kind.id, "#" ++ s⟩]) true

/-- Method `class(s)`: no duplicate check; the fragment renders as `.s`. -/
def SB.«class» (b : SB) (s : String) : Except String SB :=
  SB.make (b.a ++ [⟨Kind.«class», "." ++ s⟩]) true

/-- Method `attr(s)`: no duplicate check; the fragment renders as `[s]`. -/
def SB.attr (b : SB) (s : String) : Except String SB :=
  SB.make (b.a ++ [⟨Kind.attr, "[" ++ s ++ "]"⟩]) true

/-- Method `pseudoClass(s)`: no duplicate check; the fragment renders as
`:s`. -/
def SB.pseudoClass (b : SB) (s : String) : Except String SB :=
  SB.make (b.a ++ [⟨Kind.pseudoClass, ":" ++ s⟩]) true

/-- Method `pseudoElement(s)`: duplicate check on the `pseudoElement` kind;
the fragment renders as `::s`. -/
def SB.pseudoElement (b : SB) (s : String) : Except String SB :=
  if b.a.any (fun e => e.kind == Kind.pseudoElement) then .error err2
  else SB.make (b.a ++ [⟨Kind.pseudoElement, "::" ++ s⟩]) true

/-- Method `combine(s1, c, s2)`: it concatenates the receiver's own array,
`s1.a`, the combinator fragment `['element', " c "]` and `s2.a`, and passes
`validate = false`, so the constructor never throws; hence a total
function. -/
def SB.combine (b : SB) (s1 : SB) (c : String) (s2 : SB) : SB :=
  ⟨b.a ++ s1.a ++ [⟨Kind.element, " " ++ c ++ " "⟩] ++ s2.a⟩

/-- Method `stringify()`: `a.map(e => e[1]).join('')`. -/
def SB.stringify (b : SB) : String :=
  String.join (b.a.map (fun e => e.text))

/-- The exported facade `cssSelectorBuilder = new SB()`: empty fragment
array (the empty array passes validation). -/
def cssSelectorBuilder : SB := ⟨[]⟩

/-- One call to a fragment-adding method, with its string argument; this
enumerates the six construction paths other than `combine`. -/
inductive Op where
  | element (s : String)
  | id (s : String)
  | «class» (s : String)
  | attr (s : String)
  | pseudoClass (s : String)
  | pseudoElement (s : String)
deriving DecidableEq, Repr

/-- Dispatch of a fragment-adding call on a builder. -/
def SB.apply (b : SB) : Op → Except String SB
  | .element s => b.element s
  | .id s => b.id s
  | .«class» s => b.«class» s
  | .attr s => b.attr s
  | .pseudoClass s => b.pseudoClass s
  | .pseudoElement s => b.pseudoElement s

/-- The fragment a call appends when it reaches construction, with the
rendered text each method builds. -/
def opFrag : Op → Frag
  | .element s => ⟨Kind.element, s⟩
  | .id s => ⟨Kind.id, "#" ++ s⟩
  | .«class» s => ⟨Kind.«class», "." ++ s⟩
  | .attr s => ⟨Kind.attr, "[" ++ s ++ "]"⟩
  | .pseudoClass s => ⟨Kind.pseudoClass, ":" ++ s⟩
  | .pseudoElement s => ⟨Kind.pseudoElement, "::" ++ s⟩

/-- Whether the receiver's array makes the call fail the eager duplicate
check: `element`, `id` and `pseudoElement` test for a fragment of their own
kind, the other three methods have no such check. -/
def dupBlocked (b : SB) : Op → Bool
  | .element _ => b.a.any (fun e => e.kind == Kind.element)
  | .id _ => b.a.any (fun e => e.kind == Kind.id)
  | .pseudoElement _ => b.a.any (fun e => e.kind == Kind.pseudoElement)
  | _ => false

deriving instance DecidableEq for Except

/-- The rendering table of the specification: element `v`, id `#v`, class
`.v`, attribute `[v]`, pseudo-class `:v`, pseudo-element `::v`. -/
def render : Op → String
  | .element s => s
  | .id s => "#" ++ s
  | .«class» s => "." ++ s
  | .attr s => "[" ++ s ++ "]"
  | .pseudoClass s => ":" ++ s
  | .pseudoElement s => "::" ++ s

/-- Whether the receiver's array already holds a fragment of kind `k`; the
test the duplicate checks perform. -/
def hasKind (b : SB) (k : Kind) : Bool :=
  b.a.any (fun e => e.kind == k)

/-- An order violation: some consecutive pair of the list has the earlier
fragment's kind rank strictly greater than the later one's. -/
def hasViolation (l : List Frag) : Prop :=
  ∃ pre f g suf, l = pre ++ f :: g :: suf ∧ p g.kind < p f.kind

/-- Builders reachable from the facade by fragment-adding calls alone. -/
inductive Reachable : SB → Prop where
  | empty : Reachable cssSelectorBuilder
  | step (b b' : SB) (op : Op) : Reachable b → SB.apply b op = .ok b' → Reachable b'

/-- The `Rectangle` constructor: it stores `width` and `height`; numbers
are modelled as integers. -/
structure Rectangle where
  width : Int
  height : Int
deriving DecidableEq, Repr

/-- The `getArea` closure: it reads the instance's current `width` and
`height` at call time and returns their product (never cached). -/
def Rectangle.getArea (r : Rectangle) : Int :=
  r.width * r.height

/-- Creation `new Rectangle(w, h)`. -/
def makeRectangle (w h : Int) : Rectangle :=
  ⟨w, h⟩

/-- A JSON value, restricted to the shapes this module serializes and
parses: integers, strings without escapes, arrays, and objects whose keys
are kept in enumeration order. -/
inductive Json where
  | num (n : Int)
  | str (s : String)
  | arr (xs : List Json)
  | obj (kvs : List (String × Json))

mutual

/-- Rendering of `JSON.stringify` on the modelled values: no added
whitespace, object keys in enumeration order. -/
def Json.stringify : Json → String
  | .num n => toString n
  | .str s => "\"" ++ s ++ "\""
  | .arr xs => "[" ++ stringifyItems xs ++ "]"
  | .obj kvs => "\x7b" ++ stringifyFields kvs ++ "\x7d"

/-- Comma-separated rendering of array elements. -/
def stringifyItems : List Json → String
  | [] => ""
  | [x] => Json.stringify x
  | x :: y :: rest => Json.stringify x ++ "," ++ stringifyItems (y :: rest)

/-- Comma-separated rendering of object fields as `"key":value`. -/
def stringifyFields : List (String × Json) → String
  | [] => ""
  | [kv] => "\"" ++ kv.1 ++ "\":" ++ Json.stringify kv.2
  | kv :: kv2 :: rest =>
      "\"" ++ kv.1 ++ "\":" ++ Json.stringify kv.2 ++ "," ++ stringifyFields (kv2 :: rest)

end

/-- Digit run of a decimal literal: it accumulates the value and returns
the unconsumed remainder. -/
def parseDigits : List Char → Nat → Nat × List Char
  | c :: rest, acc =>
      if c.isDigit then parseDigits rest (acc * 10 + (c.toNat - 48)) else (acc, c :: rest)
  | [], acc => (acc, [])

/-- Body of a string literal up to its closing quote, no escapes. -/
def parseStrBody : List Char → Option (String × List Char)
  | [] => none
  | c :: rest =>
      if c = '"' then some ("", rest)
      else (parseStrBody rest).map (fun r => (String.singleton c ++ r.1, r.2))

mutual

/-- One JSON value at the head of the character stream; `fuel` bounds the
nesting so the recursion terminates. -/
def parseVal : Nat → List Char → Option (Json × List Char)
  | 0, _ => none
  | _ + 1, [] => none
  | fuel + 1, c :: rest =>
      if c = '"' then (parseStrBody rest).map (fun r => (Json.str r.1, r.2))
      else if c = '[' then
        match rest with
        | ']' :: rest2 => some (Json.arr [], rest2)
        | _ =>
            (parseItems fuel rest).bind (fun r =>
              match r.2 with
              | ']' :: rest2 => some (Json.arr r.1, rest2)
              | _ => none)
      else if c = '\x7b' then
        match rest with
        | '\x7d' :: rest2 => some (Json.obj [], rest2)
        | _ =>
            (parseFields fuel rest).bind (fun r =>
              match r.2 with
              | '\x7d' :: rest2 => some (Json.obj r.1, rest2)
              | _ => none)
      else if c = '-' then
        match rest with
        | d :: _ =>
            if d.isDigit then
              match parseDigits rest 0 with
              | (n, rest2) => some (Json.num (-(n : Int)), rest2)
            else none
        | [] => none
      else if c.isDigit then
        match parseDigits (c :: rest) 0 with
        | (n, rest2) => some (Json.num (n : Int), rest2)
      else none

/-- Comma-separated JSON values, at least one. -/
def parseItems : Nat → List Char → Option (List Json × List Char)
  | 0, _ => none
  | fuel + 1, cs =>
      (parseVal fuel cs).bind (fun r =>
        match r.2 with
        | ',' :: rest2 =>
            (parseItems fuel rest2).map (fun r2 => (r.1 :: r2.1, r2.2))
        | _ => some ([r.1], r.2))

/-- Comma-separated `"key":value` fields, at least one. -/
def parseFields : Nat → List Char → Option (List (String × Json) × List Char)
  | 0, _ => none
  | fuel + 1, cs =>
      match cs with
      | '"' :: rest =>
          (parseStrBody rest).bind (fun rk =>
            match rk.2 with
            | ':' :: rest2 =>
                (parseVal fuel rest2).bind (fun rv =>
                  match rv.2 with
                  | ',' :: rest3 =>
                      (parseFields fuel rest3).map (fun rf => ((rk.1, rv.1) :: rf.1, rf.2))
                  | _ => some ([(rk.1, rv.1)], rv.2))
            | _ => none)
      | _ => none

end

/-- Model of `JSON.parse` on the subset above: the whole text must be one
value with nothing left over, else the parse error propagates as `none`. -/
def Json.parse (s : String) : Option Json :=
  (parseVal (s.length + 1) s.toList).bind (fun r => if r.2 = [] then some r.1 else none)

/-- Source function `getJSON(obj)`, i.e. `JSON.stringify(obj)` on the
modelled values. -/
def getJSON (obj : Json) : String :=
  Json.stringify obj

/-- Model of `Object.values`: field values of an object in key-enumeration
order, elements of an array, and nothing for a primitive. -/
def jsonValues : Json → List Json
  | .obj kvs => kvs.map Prod.snd
  | .arr xs => xs
  | .num _ => []
  | .str s => s.toList.map (fun c => Json.str (String.singleton c))

/-- Source function `fromJSON(proto, json)`: parse the text, take the
values in key-enumeration order, and call the prototype's constructor
positionally on them; a parse failure propagates. -/
def fromJSON {α : Type} (ctor : List Json → α) (json : String) : Option α :=
  (Json.parse json).map (fun v => ctor (jsonValues v))

/-- The constructor reached through `Rectangle.prototype`: called with the
first two positional arguments as numbers it builds the rectangle; other
argument shapes fall outside the modelled domain. -/
def rectangleCtor : List Json → Option Rectangle
  | Json.num w :: Json.num h :: _ => some (makeRectangle w h)
  | _ => none

theorem orderingOk_iff_chain {l : List Frag} :
    orderingOk l = true ↔ List.Chain' (fun f g => p f.kind ≤ p g.kind) l := by
  induction l with
  | nil => simp [orderingOk]
  | cons x xs ih =>
    cases xs with
    | nil => simp [orderingOk]
    | cons y rest =>
      rw [orderingOk, List.chain'_cons, Bool.and_eq_true, decide_eq_true_iff]
      exact and_congr Iff.rfl ih

theorem orderingOk_false_iff {l : List Frag} :
    orderingOk l = false ↔ hasViolation l := by
  induction l with
  | nil =>
    simp only [orderingOk, Bool.true_eq_false, false_iff]
    rintro ⟨pre, f, g, suf, h, -⟩
    have := congrArg List.length h
    simp at this
    omega
  | cons x xs ih =>
    cases xs with
    | nil =>
      simp only [orderingOk, Bool.true_eq_false, false_iff]
      rintro ⟨pre, f, g, suf, h, -⟩
      have := congrArg List.length h
      simp at this
      omega
    | cons y rest =>
      rw [orderingOk, Bool.and_eq_false_iff]
      constructor
      · rintro (hd | hrec)
        · refine ⟨[], x, y, rest, rfl, ?_⟩
          have := of_decide_eq_false hd
          omega
        · obtain ⟨pre, f, g, suf, heq, hlt⟩ := ih.mp hrec
          exact ⟨x :: pre, f, g, suf, by simp [heq], hlt⟩
      · rintro ⟨pre, f, g, suf, heq, hlt⟩
        cases pre with
        | nil =>
          simp only [List.nil_append, List.cons.injEq] at heq
          obtain ⟨hx, hy, -⟩ := heq
          left
          rw [decide_eq_false_iff_not, hx, hy]
          omega
        | cons q pre' =>
          right
          apply ih.mpr
          simp only [List.cons_append, List.cons.injEq] at heq
          exact ⟨pre', f, g, suf, heq.2, hlt⟩

theorem err1_ne_err2 : err1 ≠ err2 := by decide

theorem make_true_eq (a : List Frag) :
    SB.make a true = if orderingOk a then .ok ⟨a⟩ else .error err1 := by
  cases h : orderingOk a <;> simp [SB.make, h]

theorem apply_eq (b : SB) (op : Op) :
    SB.apply b op =
      if dupBlocked b op then .error err2
      else SB.make (b.a ++ [opFrag op]) true := by
  cases op <;> rfl

/-- A fragment-adding call returns `.ok` exactly when the duplicate check
passes and the appended sequence passes the pairwise scan, and then the
result is the receiver's array with the new fragment appended. -/
theorem apply_ok_iff (b : SB) (op : Op) (b' : SB) :
    SB.apply b op = .ok b' ↔
      dupBlocked b op = false ∧ orderingOk (b.a ++ [opFrag op]) = true ∧
        b' = ⟨b.a ++ [opFrag op]⟩ := by
  rw [apply_eq, make_true_eq]
  cases hd : dupBlocked b op <;> cases ho : orderingOk (b.a ++ [opFrag op]) <;>
    simp [eq_comm]

/-- A fragment-adding call throws the ordering message exactly when the
duplicate check passes and the pairwise scan of the appended sequence
fails. -/
theorem apply_error1_iff (b : SB) (op : Op) :
    SB.apply b op = .error err1 ↔
      dupBlocked b op = false ∧ orderingOk (b.a ++ [opFrag op]) = false := by
  rw [apply_eq, make_true_eq]
  cases hd : dupBlocked b op <;> cases ho : orderingOk (b.a ++ [opFrag op]) <;> simp
  all_goals exact fun h => err1_ne_err2 h.symm

/-- A fragment-adding call throws the duplicate message exactly when the
eager duplicate check fires. -/
theorem apply_error2_iff (b : SB) (op : Op) :
    SB.apply b op = .error err2 ↔ dupBlocked b op = true := by
  rw [apply_eq, make_true_eq]
  cases hd : dupBlocked b op <;> cases ho : orderingOk (b.a ++ [opFrag op]) <;> simp
  all_goals exact fun h => err1_ne_err2 h

theorem join_append (l : List String) (x : String) :
    String.join (l ++ [x]) = String.join l ++ x := by
  simp [String.join, List.foldl_append]

theorem stringify_snoc (l : List Frag) (f : Frag) :
    SB.stringify ⟨l ++ [f]⟩ = SB.stringify ⟨l⟩ ++ f.text := by
  simp [SB.stringify, join_append]

theorem apply_error1_iff_violation (b : SB) (op : Op) (h : dupBlocked b op = false) :
    SB.apply b op = .error err1 ↔ hasViolation (b.a ++ [opFrag op]) := by
  constructor
  · intro he
    exact orderingOk_false_iff.mp ((apply_error1_iff b op).mp he).2
  · intro hv
    exact (apply_error1_iff b op).mpr ⟨h, orderingOk_false_iff.mpr hv⟩

theorem opFrag_text (op : Op) : (opFrag op).text = render op := by
  cases op <;> rfl

/-- C1 counterexample: with the non-empty receiver `element('x')`, the
array built by `combine(element('div'), '+', element('span'))` is not the
claimed exact concatenation of the left fragments, the combinator fragment
and the right fragments — the receiver's own fragment is prepended, and
the rendered string is `xdiv + span` rather than `div + span`. -/
theorem combine_exact_concat_cex :
    (SB.combine ⟨[⟨Kind.element, "x"⟩]⟩ ⟨[⟨Kind.element, "div"⟩]⟩ "+"
        ⟨[⟨Kind.element, "span"⟩]⟩).a ≠
      [⟨Kind.element, "div"⟩] ++ [⟨Kind.element, " + "⟩] ++ [⟨Kind.element, "span"⟩] ∧
    ((cssSelectorBuilder.element "x").bind (fun bx =>
        (cssSelectorBuilder.element "div").bind (fun l =>
          (cssSelectorBuilder.element "span").map (fun r =>
            (bx.combine l "+" r).stringify)))) = .ok "xdiv + span" ∧
    "xdiv + span" ≠ "div + span" := by
  exact ⟨by decide, by decide, by decide⟩

/-- C1 (amended): `combine(L, c, R)` builds, without any kind-ordering
validation (the total function `SB.combine` never fails), the array
`receiver.a ++ L.a ++ [element-kind " c "] ++ R.a`; when the receiver is
the canonical empty facade — as in every documented use — this is exactly
`L.a ++ [element-kind " c "] ++ R.a`, and
`combine(element('div'), '+', element('span')).stringify()` is
`'div + span'`. -/
theorem combine_receiver_prefix :
    (∀ (b l r : SB) (c : String),
        (SB.combine b l c r).a =
          b.a ++ (l.a ++ ([⟨Kind.element, " " ++ c ++ " "⟩] ++ r.a))) ∧
      (∀ (l r : SB) (c : String),
        (SB.combine cssSelectorBuilder l c r).a =
          l.a ++ ([⟨Kind.element, " " ++ c ++ " "⟩] ++ r.a)) ∧
      (((cssSelectorBuilder.element "div").bind (fun l =>
          (cssSelectorBuilder.element "span").map (fun r =>
            (cssSelectorBuilder.combine l "+" r).stringify))) = .ok "div + span") := by
  refine ⟨fun b l r c => ?_, fun l r c => ?_, by decide⟩
  · simp [SB.combine]
  · simp [SB.combine, cssSelectorBuilder]

/-- C2: every builder reachable from the facade by the six fragment-adding
operations alone has its fragment kinds in non-decreasing rank order under
the table `p`. -/
theorem reachable_kinds_sorted (b : SB) (h : Reachable b) :
    List.Chain' (fun f g => p f.kind ≤ p g.kind) b.a := by
  induction h with
  | empty => simp [cssSelectorBuilder]
  | step b b' op hr hok ih =>
      obtain ⟨-, ho, hb'⟩ := (apply_ok_iff b op b').mp hok
      subst hb'
      exact orderingOk_iff_chain.mp ho

theorem reachable_kinds_sorted_witness :
    Reachable ⟨[⟨Kind.id, "#a"⟩]⟩ ∧
      List.Chain' (fun f g => p f.kind ≤ p g.kind) [(⟨Kind.id, "#a"⟩ : Frag)] := by
  have hr : Reachable ⟨[⟨Kind.id, "#a"⟩]⟩ :=
    Reachable.step cssSelectorBuilder ⟨[⟨Kind.id, "#a"⟩]⟩ (Op.id "a") Reachable.empty
      (by decide)
  exact ⟨hr, reachable_kinds_sorted _ hr⟩

/-- C3: whenever a fragment-adding call reaches construction (it is not
rejected by the eager duplicate check), it throws the ordering message
exactly when some consecutive pair of the appended sequence has the
earlier kind's rank strictly above the later kind's rank; in particular
`class('b').id('a')` throws the ordering error. -/
theorem ordering_error_iff_violation :
    (∀ (b : SB) (op : Op), dupBlocked b op = false →
        (SB.apply b op = .error err1 ↔ hasViolation (b.a ++ [opFrag op]))) ∧
      ((cssSelectorBuilder.«class» "b").bind (fun b => b.id "a")) = .error err1 := by
  exact ⟨fun b op h => apply_error1_iff_violation b op h, by decide⟩

theorem ordering_error_iff_violation_witness :
    dupBlocked ⟨[⟨Kind.«class», ".b"⟩]⟩ (Op.id "a") = false ∧
      (SB.apply ⟨[⟨Kind.«class», ".b"⟩]⟩ (Op.id "a") = .error err1 ↔
        hasViolation ([⟨Kind.«class», ".b"⟩] ++ [opFrag (Op.id "a")])) :=
  ⟨by decide, ordering_error_iff_violation.1 ⟨[⟨Kind.«class», ".b"⟩]⟩ (Op.id "a") (by decide)⟩

/-- C4: `element`, `id` and `pseudoElement` throw the duplicate message
exactly when the receiver already holds a fragment of their kind; the
check precedes construction, so in the embedding the receiver value is
untouched and remains usable: after `id('a').id('b')` throws, the builder
from the first `id('a')` still stringifies to `#a` and still accepts a
`class` call. -/
theorem duplicate_error_iff_kind_present :
    (∀ (b : SB) (s : String),
        (SB.element b s = .error err2 ↔ hasKind b Kind.element = true) ∧
        (SB.id b s = .error err2 ↔ hasKind b Kind.id = true) ∧
        (SB.pseudoElement b s = .error err2 ↔ hasKind b Kind.pseudoElement = true)) ∧
      ((cssSelectorBuilder.id "a").bind (fun b1 => b1.id "b") = .error err2) ∧
      ((cssSelectorBuilder.id "a").map SB.stringify = .ok "#a") ∧
      (((cssSelectorBuilder.id "a").bind (fun b1 =>
          (b1.«class» "c").map SB.stringify)) = .ok "#a.c") := by
  refine ⟨fun b s => ⟨?_, ?_, ?_⟩, by decide, by decide, by decide⟩
  · exact apply_error2_iff b (Op.element s)
  · exact apply_error2_iff b (Op.id s)
  · exact apply_error2_iff b (Op.pseudoElement s)

/-- C5: a successful fragment-adding call extends the rendered string by
exactly the documented rendering of its fragment — so `stringify` is the
plain concatenation of the renderings in sequence order — and the chained
example renders as `#main.container.editable`. -/
theorem stringify_appends_rendering :
    (∀ (b : SB) (op : Op) (b' : SB), SB.apply b op = .ok b' →
        SB.stringify b' = SB.stringify b ++ render op) ∧
      ((((cssSelectorBuilder.id "main").bind (fun b => b.«class» "container")).bind
          (fun b => b.«class» "editable")).map SB.stringify =
        .ok "#main.container.editable") := by
  constructor
  · intro b op b' hok
    obtain ⟨-, -, hb'⟩ := (apply_ok_iff b op b').mp hok
    subst hb'
    rw [show (⟨b.a ++ [opFrag op]⟩ : SB) = ⟨b.a ++ [opFrag op]⟩ from rfl, stringify_snoc,
      opFrag_text]
  · decide

theorem stringify_appends_rendering_witness :
    SB.apply cssSelectorBuilder (Op.id "main") = .ok ⟨[⟨Kind.id, "#main"⟩]⟩ ∧
      SB.stringify ⟨[⟨Kind.id, "#main"⟩]⟩ =
        SB.stringify cssSelectorBuilder ++ render (Op.id "main") :=
  ⟨by decide, stringify_appends_rendering.1 cssSelectorBuilder (Op.id "main") _ (by decide)⟩

/-- C6: every successful fragment-adding call yields a builder whose array
is the receiver's array with exactly one fragment appended — a strictly
longer, hence distinct, array — and `combine` yields the receiver's array
extended by both operands and the combinator fragment, again distinct from
the receiver's; the receiver value itself is never modified. -/
theorem ops_return_fresh_builder :
    (∀ (b : SB) (op : Op) (b' : SB), SB.apply b op = .ok b' →
        b'.a = b.a ++ [opFrag op] ∧ b'.a ≠ b.a) ∧
      (∀ (b s1 s2 : SB) (c : String),
        (SB.combine b s1 c s2).a =
          b.a ++ s1.a ++ [⟨Kind.element, " " ++ c ++ " "⟩] ++ s2.a ∧
        (SB.combine b s1 c s2).a ≠ b.a) := by
  constructor
  · intro b op b' hok
    obtain ⟨-, -, hb'⟩ := (apply_ok_iff b op b').mp hok
    subst hb'
    refine ⟨rfl, fun hctr => ?_⟩
    have := congrArg List.length hctr
    simp at this
  · intro b s1 s2 c
    refine ⟨rfl, fun hctr => ?_⟩
    have := congrArg List.length hctr
    simp [SB.combine] at this

theorem ops_return_fresh_builder_witness :
    (⟨[⟨Kind.id, "#a"⟩]⟩ : SB).a = cssSelectorBuilder.a ++ [opFrag (Op.id "a")] ∧
      (⟨[⟨Kind.id, "#a"⟩]⟩ : SB).a ≠ cssSelectorBuilder.a :=
  ops_return_fresh_builder.1 cssSelectorBuilder (Op.id "a") ⟨[⟨Kind.id, "#a"⟩]⟩ (by decide)

/-- C7: a fragment-adding call on a builder produced by `combine`
re-validates the whole combined sequence, throwing the ordering message
exactly when the extended sequence has a rank inversion; in particular
`combine(element('a'), '+', pseudoClass('x')).class('y')` throws the
ordering error even though the combined builder itself was accepted. -/
theorem combine_then_add_revalidates :
    (∀ (b s1 s2 : SB) (c : String) (op : Op),
        dupBlocked (SB.combine b s1 c s2) op = false →
          (SB.apply (SB.combine b s1 c s2) op = .error err1 ↔
            hasViolation ((SB.combine b s1 c s2).a ++ [opFrag op]))) ∧
      (((cssSelectorBuilder.element "a").bind (fun l =>
          (cssSelectorBuilder.pseudoClass "x").bind (fun r =>
            (cssSelectorBuilder.combine l "+" r).«class» "y"))) = .error err1) := by
  exact ⟨fun b s1 s2 c op h => apply_error1_iff_violation _ op h, by decide⟩

theorem combine_then_add_revalidates_witness :
    dupBlocked (SB.combine cssSelectorBuilder ⟨[⟨Kind.element, "a"⟩]⟩ "+"
        ⟨[⟨Kind.pseudoClass, ":x"⟩]⟩) (Op.«class» "y") = false ∧
      (SB.apply (SB.combine cssSelectorBuilder ⟨[⟨Kind.element, "a"⟩]⟩ "+"
          ⟨[⟨Kind.pseudoClass, ":x"⟩]⟩) (Op.«class» "y") = .error err1 ↔
        hasViolation ((SB.combine cssSelectorBuilder ⟨[⟨Kind.element, "a"⟩]⟩ "+"
            ⟨[⟨Kind.pseudoClass, ":x"⟩]⟩).a ++ [opFrag (Op.«class» "y")])) :=
  ⟨by decide,
    combine_then_add_revalidates.1 cssSelectorBuilder ⟨[⟨Kind.element, "a"⟩]⟩
      ⟨[⟨Kind.pseudoClass, ":x"⟩]⟩ "+" (Op.«class» "y") (by decide)⟩

/-- C8: every builder produced by `combine` holds an element-kind fragment
(the combinator is stored under the `element` tag), so calling
`element(v)` on any combined builder throws the duplicate message, even
when neither operand held an element fragment. -/
theorem combine_contains_element_kind :
    ∀ (b s1 s2 : SB) (c v : String),
      hasKind (SB.combine b s1 c s2) Kind.element = true ∧
      SB.element (SB.combine b s1 c s2) v = .error err2 := by
  intro b s1 s2 c v
  have h : hasKind (SB.combine b s1 c s2) Kind.element = true := by
    simp [hasKind, SB.combine]
  exact ⟨h, (apply_error2_iff (SB.combine b s1 c s2) (Op.element v)).mpr h⟩

/-- C9: `new Rectangle(w, h)` stores `width = w` and `height = h`, and
`getArea()` recomputes `width * height` from the current field values on
each call: the 10 by 20 rectangle has area 200, and after replacing the
`width` field the area is the product with the new width. -/
theorem makeRectangle_spec :
    ∀ (w h w' : Int),
      (makeRectangle w h).width = w ∧ (makeRectangle w h).height = h ∧
      (makeRectangle w h).getArea = w * h ∧
      (makeRectangle 10 20).getArea = 200 ∧
      ({ makeRectangle w h with width := w' } : Rectangle).getArea = w' * h := by
  intro w h w'
  exact ⟨rfl, rfl, rfl, by decide, rfl⟩

/-- C10: `getJSON` renders `[1,2,3]` as the text `[1,2,3]`; `fromJSON`
parses the text, takes the values in key-enumeration order and calls the
prototype's constructor positionally on them; and serializing the object
with keys `width`, `height` set to 10, 20 and deserializing it through the
rectangle constructor rebuilds the 10 by 20 rectangle. -/
theorem json_serialization_roundtrip :
    getJSON (Json.arr [Json.num 1, Json.num 2, Json.num 3]) = "[1,2,3]" ∧
      (∀ (json : String) (v : Json), Json.parse json = some v →
          fromJSON rectangleCtor json = some (rectangleCtor (jsonValues v))) ∧
      fromJSON rectangleCtor
          (getJSON (Json.obj [("width", Json.num 10), ("height", Json.num 20)])) =
        some (some (makeRectangle 10 20)) := by
  refine ⟨rfl, ?_, rfl⟩
  intro json v h
  simp [fromJSON, h]

theorem json_serialization_roundtrip_witness :
    Json.parse "[1,2,3]" = some (Json.arr [Json.num 1, Json.num 2, Json.num 3]) ∧
      fromJSON rectangleCtor "[1,2,3]" =
        some (rectangleCtor (jsonValues (Json.arr [Json.num 1, Json.num 2, Json.num 3]))) :=
  ⟨rfl, json_serialization_roundtrip.2.1 "[1,2,3]"
    (Json.arr [Json.num 1, Json.num 2, Json.num 3]) rfl⟩

end ObjectsTasks
